import Mathlib

/-!
# Verification development for the accbot ledger bot (src/bot.py)

This file gives a shallow embedding in Lean 4 of the conversational ledger
bot implemented in `src/bot.py`, and settles a list of claims about it.

Modelling conventions:
* sqlite rows become Lean structures; the `transactions` / `debtors` tables
  become lists kept in descending surrogate-id order (newest first), so that
  the SQL `ORDER BY id DESC LIMIT 1` used by the id allocator is `head?`;
  `INTEGER PRIMARY KEY AUTOINCREMENT` becomes an always-increasing counter.
* Python `float` amounts are modelled as exact rationals (`Rat`); the
  fragment of `float(...)` parsing modelled is sign + digits + optional
  decimal point (what the bot's prompts describe), not exponents/inf/nan.
* Python's ASCII `str.isalpha`/`isdigit`/`islower`/`upper`/`lower` behaviour
  is modelled with the corresponding ASCII `Char` functions.
* Telegram message sending, keyboards and the job queue are modelled as an
  effect list emitted by the handler; `random.choice(string.ascii_lowercase)`
  is an input (oracle) to the step function.
-/

namespace AccBot

/-! ## Decimal rendering and parsing

`bot.py` renders id counters with Python's `f"{n:03d}"` (decimal digits,
zero-padded on the left to width 3) and parses them back with
`int(last_id[0][1:])`.  We model rendering via a fuel-based digit expansion
and parsing via a most-significant-first fold. -/

/-- ASCII digit character for a digit value. -/
def digitChar (d : Nat) : Char := Char.ofNat (48 + d)

/-- Digit value of an ASCII digit character (what `int` does per char). -/
def charDigit (c : Char) : Nat := c.toNat - 48

/-- Little-endian decimal digits of `n`, with explicit fuel (structural). -/
def natDigitsAux : Nat → Nat → List Nat
  | 0, _ => []
  | _ + 1, 0 => []
  | fuel + 1, n + 1 => ((n + 1) % 10) :: natDigitsAux fuel ((n + 1) / 10)

/-- Value of a little-endian digit list. -/
def valLE : List Nat → Nat
  | [] => 0
  | d :: ds => d + 10 * valLE ds

/-- Most-significant-first decimal digits of `n` (empty for `0`). -/
def decimalDigits (n : Nat) : List Nat := (natDigitsAux n n).reverse

/-- Digits of `n` zero-padded on the left to width 3: Python `f"{n:03d}"`. -/
def pad3Digits (n : Nat) : List Nat :=
  List.replicate (3 - (decimalDigits n).length) 0 ++ decimalDigits n

/-- Characters of Python `f"{n:03d}"`. -/
def pad3Chars (n : Nat) : List Char := (pad3Digits n).map digitChar

/-- Value of a most-significant-first digit-character list (Python `int`). -/
def charsVal (cs : List Char) : Nat := cs.foldl (fun a c => 10 * a + charDigit c) 0

/-- `int(s[1:])`: numeric value of everything after the first character. -/
def numSuffix (cs : List Char) : Nat := charsVal (cs.drop 1)

theorem charDigit_digitChar {d : Nat} (h : d < 10) : charDigit (digitChar d) = d := by
  interval_cases d <;> rfl

theorem isDigit_digitChar {d : Nat} (h : d < 10) : (digitChar d).isDigit = true := by
  interval_cases d <;> rfl

theorem natDigitsAux_lt10 : ∀ fuel n d, d ∈ natDigitsAux fuel n → d < 10 := by
  intro fuel
  induction fuel with
  | zero => intro n d h; simp [natDigitsAux] at h
  | succ f ih =>
    intro n d h
    match n with
    | 0 => simp [natDigitsAux] at h
    | m + 1 =>
      simp only [natDigitsAux, List.mem_cons] at h
      rcases h with h | h
      · subst h; exact Nat.mod_lt _ (by omega)
      · exact ih _ _ h

theorem valLE_natDigitsAux : ∀ fuel n, n ≤ fuel → valLE (natDigitsAux fuel n) = n := by
  intro fuel
  induction fuel with
  | zero => intro n h; interval_cases n; simp [natDigitsAux, valLE]
  | succ f ih =>
    intro n h
    match n with
    | 0 => simp [natDigitsAux, valLE]
    | m + 1 =>
      have hdiv : (m + 1) / 10 ≤ f := by
        have := Nat.div_lt_self (Nat.succ_pos m) (by omega : 1 < 10)
        omega
      simp only [natDigitsAux, valLE, ih _ hdiv]
      omega

theorem natDigitsAux_length : ∀ fuel n k, n ≤ fuel → n < 10 ^ k →
    (natDigitsAux fuel n).length ≤ k := by
  intro fuel
  induction fuel with
  | zero => intro n k h hk; interval_cases n; simp [natDigitsAux]
  | succ f ih =>
    intro n k h hk
    match n, k with
    | 0, _ => simp [natDigitsAux]
    | m + 1, 0 => simp at hk
    | m + 1, s + 1 =>
      simp only [natDigitsAux, List.length_cons]
      have h1 : (m + 1) / 10 ≤ f := by
        have := Nat.div_lt_self (Nat.succ_pos m) (by omega : 1 < 10)
        omega
      have h2 : (m + 1) / 10 < 10 ^ s := by
        rw [pow_succ] at hk
        exact (Nat.div_lt_iff_lt_mul (by omega)).mpr hk
      have := ih _ _ h1 h2
      omega

theorem valMSB_reverse : ∀ ds : List Nat,
    List.foldl (fun a d => 10 * a + d) 0 ds.reverse = valLE ds := by
  intro ds
  induction ds with
  | nil => rfl
  | cons d ds ih =>
    rw [List.reverse_cons, List.foldl_append, ih]
    simp [valLE, List.foldl_cons]
    omega

theorem foldl_replicate_zero (k : Nat) :
    List.foldl (fun a d => 10 * a + d) 0 (List.replicate k 0) = 0 := by
  induction k with
  | zero => rfl
  | succ k ih => simpa [List.replicate_succ, List.foldl_cons] using ih

theorem foldl_map_digitChar : ∀ (ds : List Nat) (a : Nat), (∀ d ∈ ds, d < 10) →
    List.foldl (fun x c => 10 * x + charDigit c) a (ds.map digitChar)
      = List.foldl (fun x d => 10 * x + d) a ds := by
  intro ds
  induction ds with
  | nil => intro a _; rfl
  | cons d ds ih =>
    intro a h
    simp only [List.map_cons, List.foldl_cons]
    rw [charDigit_digitChar (h d (List.mem_cons_self d ds))]
    exact ih _ (fun x hx => h x (List.mem_cons_of_mem d hx))

theorem pad3Digits_lt10 (n : Nat) : ∀ d ∈ pad3Digits n, d < 10 := by
  intro d hd
  unfold pad3Digits at hd
  rcases List.mem_append.mp hd with h | h
  · have := List.eq_of_mem_replicate h; omega
  · exact natDigitsAux_lt10 _ _ _ (List.mem_reverse.mp h)

theorem charsVal_pad3Chars (n : Nat) : charsVal (pad3Chars n) = n := by
  have h1 : charsVal (pad3Chars n)
      = List.foldl (fun x d => 10 * x + d) 0 (pad3Digits n) :=
    foldl_map_digitChar _ 0 (pad3Digits_lt10 n)
  rw [h1]
  unfold pad3Digits
  rw [List.foldl_append, foldl_replicate_zero]
  unfold decimalDigits
  rw [valMSB_reverse]
  exact valLE_natDigitsAux n n (le_refl n)

theorem pad3Chars_length {n : Nat} (h : n ≤ 999) : (pad3Chars n).length = 3 := by
  have h3 : (10 : Nat) ^ 3 = 1000 := by norm_num
  have hlen : (decimalDigits n).length ≤ 3 := by
    unfold decimalDigits
    rw [List.length_reverse]
    exact natDigitsAux_length n n 3 (le_refl n) (by omega)
  simp only [pad3Chars, pad3Digits, List.length_map, List.length_append,
    List.length_replicate]
  omega

theorem pad3Chars_all_digits (n : Nat) : (pad3Chars n).all Char.isDigit = true := by
  rw [List.all_eq_true]
  intro c hc
  simp only [pad3Chars, List.mem_map] at hc
  obtain ⟨d, hd, rfl⟩ := hc
  exact isDigit_digitChar (pad3Digits_lt10 n d hd)

/-! ## Data model

Rows of the two sqlite tables (`init_db`, lines 44-68 of `bot.py`). -/

/-- `type` column of the `transactions` table: `'income'` or `'expense'`. -/
inductive TxKind
  | income
  | expense
deriving DecidableEq

/-- A row of the `transactions` table:
`(id INTEGER PRIMARY KEY AUTOINCREMENT, transaction_id TEXT UNIQUE, type TEXT,
amount REAL, description TEXT, date TIMESTAMP)`. -/
structure Transaction where
  id : Nat
  transaction_id : List Char
  type : TxKind
  amount : Rat
  description : Option String
  date : Int
deriving DecidableEq

/-- `status` column of the `debtors` table: `'active'` or `'paid'`. -/
inductive DebtorStatus
  | active
  | paid
deriving DecidableEq

/-- A row of the `debtors` table:
`(id INTEGER PRIMARY KEY AUTOINCREMENT, debtor_id TEXT UNIQUE, name TEXT,
amount REAL, registration_date TIMESTAMP, status TEXT)`. -/
structure Debtor where
  id : Nat
  debtor_id : List Char
  name : String
  amount : Rat
  registration_date : Int
  status : DebtorStatus
deriving DecidableEq

/-- The database.  Both tables are kept newest-first (descending surrogate
id), so `ORDER BY id DESC LIMIT 1` is `head?`.  The `next…RowId` counters
model sqlite's `AUTOINCREMENT` (they never go backwards, even after
`DELETE FROM`). -/
structure Store where
  transactions : List Transaction
  debtors : List Debtor
  nextTxRowId : Nat
  nextDebtorRowId : Nat
deriving DecidableEq

def emptyStore : Store := ⟨[], [], 1, 1⟩

/-! ## ID allocator (`generate_transaction_id`, `generate_debtor_id`) -/

/-- `generate_transaction_id` (lines 104-125): read the most recently
inserted row (`ORDER BY id DESC LIMIT 1`), parse `int(last_id[0][1:])`,
add one (or start at 1 on an empty table), and render
`f"{letter}{new_number:03d}"`.  The random letter is a parameter. -/
def generate_transaction_id (store : Store) (letter : Char) : List Char :=
  match store.transactions.head? with
  | some t => letter :: pad3Chars (numSuffix t.transaction_id + 1)
  | none => letter :: pad3Chars 1

/-- `generate_debtor_id` (lines 127-145), and the identical inline copy in
the `debtor_amount` branch (lines 598-617): same as transactions but with
the fixed prefix `'D'`. -/
def generate_debtor_id (store : Store) : List Char :=
  match store.debtors.head? with
  | some d => 'D' :: pad3Chars (numSuffix d.debtor_id + 1)
  | none => 'D' :: pad3Chars 1

/-- `INSERT INTO transactions ...` (lines 736-737). -/
def insertTransaction (store : Store) (tid : List Char) (kind : TxKind)
    (amount : Rat) (description : Option String) (date : Int) : Store :=
  { store with
      transactions :=
        { id := store.nextTxRowId, transaction_id := tid, type := kind,
          amount := amount, description := description, date := date }
          :: store.transactions,
      nextTxRowId := store.nextTxRowId + 1 }

/-- `INSERT INTO debtors ...` (lines 653-660); status is always `'active'`. -/
def insertDebtor (store : Store) (did : List Char) (name : String)
    (amount : Rat) (date : Int) : Store :=
  { store with
      debtors :=
        { id := store.nextDebtorRowId, debtor_id := did, name := name,
          amount := amount, registration_date := date, status := .active }
          :: store.debtors,
      nextDebtorRowId := store.nextDebtorRowId + 1 }

/-- Id generation followed by insertion, as executed by the
`income_description`/`expense_description` branch (lines 722-739). -/
def createTransaction (store : Store) (letter : Char) (kind : TxKind)
    (amount : Rat) (description : Option String) (date : Int) :
    Store × List Char :=
  let tid := generate_transaction_id store letter
  (insertTransaction store tid kind amount description date, tid)

/-- Id generation followed by insertion, as executed by the
`debtor_amount` branch (lines 587-639) and `debtor_confirmation` branch
(lines 646-688) back to back with no other write in between. -/
def createDebtor (store : Store) (name : String) (amount : Rat)
    (date : Int) : Store × List Char :=
  let did := generate_debtor_id store
  (insertDebtor store did name amount date, did)

/-- `DELETE FROM debtors WHERE id = ?` (line 298). -/
def deleteDebtorById (store : Store) (surr : Nat) : Store :=
  { store with debtors := store.debtors.filter (fun d => !(d.id == surr)) }

/-! ## Store-operation runs (for the id-uniqueness claim)

A "run" is a sequence of the store operations the bot can perform:
creating records (`handle_message`), and the clearing/deletion commands
(`clear_all_data`, `clear_transaction_reports`, `clear_debtor_list`,
`delete_paid_debtor`). -/

inductive StoreOp
  | createTx (letter : Char) (kind : TxKind) (amount : Rat)
      (description : Option String) (date : Int)
  | createDebtorRec (name : String) (amount : Rat) (date : Int)
  | clearTransactions
  | clearDebtors
  | clearAll
  | deleteDebtorRow (surr : Nat)
deriving DecidableEq

/-- An externalId returned to the user by a create call. -/
inductive CreatedId
  | tx (cs : List Char)
  | debtor (cs : List Char)
deriving DecidableEq

def CreatedId.chars : CreatedId → List Char
  | .tx cs => cs
  | .debtor cs => cs

/-- One operation against the store; creates return the new externalId. -/
def applyOp (store : Store) : StoreOp → Store × Option CreatedId
  | .createTx letter kind amount descr date =>
      let r := createTransaction store letter kind amount descr date
      (r.1, some (CreatedId.tx r.2))
  | .createDebtorRec name amount date =>
      let r := createDebtor store name amount date
      (r.1, some (CreatedId.debtor r.2))
  | .clearTransactions => ({ store with transactions := [] }, none)
  | .clearDebtors => ({ store with debtors := [] }, none)
  | .clearAll => ({ store with transactions := [], debtors := [] }, none)
  | .deleteDebtorRow surr => (deleteDebtorById store surr, none)

/-- Run a sequence of operations, collecting the returned externalIds in
order. -/
def runOps : Store → List StoreOp → Store × List CreatedId
  | store, [] => (store, [])
  | store, op :: rest =>
      match applyOp store op with
      | (s, none) => runOps s rest
      | (s, some cid) =>
          let r := runOps s rest
          (r.1, cid :: r.2)

/-- The Transaction externalId format of the spec: exactly one lowercase
letter followed by exactly three digits. -/
def txFormatOk : List Char → Bool
  | c :: rest => c.isLower && rest.length == 3 && rest.all Char.isDigit
  | [] => false

/-- The Debtor externalId format of the spec: `'D'` followed by exactly
three digits. -/
def debtorFormatOk : List Char → Bool
  | c :: rest => c == 'D' && rest.length == 3 && rest.all Char.isDigit
  | [] => false

def createdOk : CreatedId → Bool
  | .tx cs => txFormatOk cs
  | .debtor cs => debtorFormatOk cs

/-! ## Message texts

The exact button texts `handle_message` / `handle_edit_transaction`
compare against (with the emoji prefixes from `EMOJIS` substituted). -/

def btnIncome : String := "💰 ثبت درآمد"

def btnExpense : String := "💸 ثبت هزینه"

def btnReport : String := "📊 گزارش تراکنش‌ها"

def btnEditTx : String := "✏️ ویرایش تراکنش"

def btnSetDebtor : String := "👤 ثبت بدهکار"

def btnDebtorList : String := "📋 لیست بدهکاران"

def btnEditDebtor : String := "✏️ ویرایش بدهکار"

def btnBack : String := "🔙 بازگشت به منو"

def btnSkip : String := "⏭️ رد کردن توضیحات"

def btnConfirm : String := "✅ تایید"

def btnCancel : String := "❌ انصراف"

def btnDebtorEditAmount : String := "💰 ویرایش مبلغ"

def btnChangeStatus : String := "📊 تغییر وضعیت"

def btnTxEditAmount : String := "✏️ ویرایش مبلغ"

def btnTxEditDesc : String := "✏️ ویرایش توضیحات"

def periodToday : String := "📅 امروز"

def periodWeek : String := "📅 هفته جاری"

def periodMonth : String := "📅 ماه جاری"

def periodAll : String := "📅 همه تراکنش‌ها"

/-- The seven texts checked by the top-level `if/elif` chain of
`handle_message` (lines 314-346), in source order. -/
def menuTexts : List String :=
  [btnIncome, btnExpense, btnReport, btnEditTx, btnSetDebtor,
   btnDebtorList, btnEditDebtor]

/-! ## Amount parsing

The bot parses amounts with `float(text.replace(',', ''))` and rejects
the parse failure (`ValueError`) or a value `<= 0`.  `pyFloat` models the
decimal fragment of `float`: optional surrounding whitespace, optional
sign, digits with an optional decimal point (exponents, `inf`, `nan` and
underscore separators are out of the modelled fragment; amounts are exact
rationals rather than IEEE doubles). -/

/-- Python `str.strip()` (also what `float` does to surrounding
whitespace), on the character list. -/
def pyStrip (cs : List Char) : List Char :=
  ((cs.dropWhile Char.isWhitespace).reverse.dropWhile Char.isWhitespace).reverse

/-- Digits-with-optional-point body of a float literal. -/
def pyFloatCore (cs : List Char) : Option Rat :=
  let intPart := cs.takeWhile Char.isDigit
  let rest := cs.dropWhile Char.isDigit
  match rest with
  | [] => if intPart.isEmpty then none else some ((charsVal intPart : Nat) : Rat)
  | '.' :: frac =>
      if frac.all Char.isDigit && !(intPart.isEmpty && frac.isEmpty) then
        some (((charsVal intPart : Nat) : Rat)
          + ((charsVal frac : Nat) : Rat) / ((10 : Rat) ^ frac.length))
      else none
  | _ => none

/-- `float(text.replace(',', ''))`, returning `none` for `ValueError`. -/
def pyFloat (text : String) : Option Rat :=
  let cs := pyStrip (text.data.filter (fun c => !(c == ',')))
  match cs with
  | '-' :: rest => (pyFloatCore rest).map (fun v => -v)
  | '+' :: rest => pyFloatCore rest
  | _ => pyFloatCore cs

/-! ## Conversation state

`context.user_data` is modelled as a tagged union carrying exactly the
fields each `waiting_for` value uses (`waiting_for`, `amount`,
`editing_transaction`, `debtor_name`, `debtor_amount`, `debtor_id`,
`editing_debtor`, `new_amount`, `new_status`).  `idle` is the cleared
dictionary. -/

inductive Session
  | idle
  | awaitingIncomeAmount
  | awaitingExpenseAmount
  | awaitingIncomeDescription (amount : Rat)
  | awaitingExpenseDescription (amount : Rat)
  | awaitingReportPeriod
  | awaitingEditTransactionId
  | awaitingEditAction (t : Transaction)
  | awaitingEditAmount (t : Transaction)
  | awaitingEditDescription (t : Transaction)
  | awaitingDebtorName
  | awaitingDebtorAmount (name : String)
  | awaitingDebtorConfirmation (name : String) (amount : Rat) (debtorId : List Char)
  | awaitingEditDebtorId
  | awaitingEditDebtorAction (d : Debtor)
  | awaitingEditDebtorAmount (d : Debtor)
  | awaitingEditDebtorAmountConfirmation (d : Debtor) (newAmount : Rat)
  | awaitingEditDebtorStatusConfirmation (d : Debtor) (newStatus : DebtorStatus)
deriving DecidableEq

/-- `'paid' if current_status == 'active' else 'active'` (line 423). -/
def flipStatus : DebtorStatus → DebtorStatus
  | .active => .paid
  | .paid => .active

/-- The grouped reply produced by `debtor_list` (lines 199-276): the
unpaid total, then the active debtors, then the paid debtors. -/
structure DebtorListReport where
  total_debt : Rat
  active_debtors : List Debtor
  paid_debtors : List Debtor
deriving DecidableEq

/-- Comparison key mirroring `ORDER BY status DESC`: the stored TEXT
values satisfy `'paid' > 'active'` lexicographically, so `paid` sorts
first under `DESC`. -/
def statusKey : DebtorStatus → Nat
  | .active => 0
  | .paid => 1

/-- `ORDER BY status DESC, registration_date DESC` (line 206). -/
abbrev debtorOrder (a b : Debtor) : Prop :=
  statusKey b.status < statusKey a.status ∨
    (statusKey a.status = statusKey b.status ∧ b.registration_date ≤ a.registration_date)

/-- `debtor_list` (lines 199-276): fetch all debtors sorted, return `none`
for the "no debtors" reply, else the unpaid total
(`sum(debtor[2] for debtor in debtors if debtor[4] == 'active')`) and the
two status groups. -/
def fetchDebtors (store : Store) : List Debtor :=
  List.insertionSort debtorOrder store.debtors

def debtor_list (store : Store) : Option DebtorListReport :=
  if (fetchDebtors store).isEmpty then none
  else
    some { total_debt :=
             (((fetchDebtors store).filter (fun d => d.status == .active)).map (·.amount)).sum,
           active_debtors := (fetchDebtors store).filter (fun d => d.status == .active),
           paid_debtors := (fetchDebtors store).filter (fun d => d.status == .paid) }

/-- The totals of `show_filtered_report` (lines 803-814) **as they would
be computed if line 802's `fetchall()` ran inside the connection block**:
fetch the transactions of the window (`date BETWEEN ? AND ?`, inclusive,
or all rows when the window is `none`, i.e. the all-transactions period),
return `none` for the "no transactions" reply, else the per-kind sums and
`balance = total_income - total_expense`.  See `c1_report_bug`: in the
code as written this computation is never reached. -/
structure Report where
  total_income : Rat
  total_expense : Rat
  balance : Rat
deriving DecidableEq

abbrev txOrder (a b : Transaction) : Prop := b.date ≤ a.date

def inWindow (w : Option (Int × Int)) (d : Int) : Bool :=
  match w with
  | some se => decide (se.1 ≤ d ∧ d ≤ se.2)
  | none => true

def fetchReportRows (store : Store) (w : Option (Int × Int)) : List Transaction :=
  List.insertionSort txOrder (store.transactions.filter (fun t => inWindow w t.date))

def report_totals (store : Store) (w : Option (Int × Int)) : Option Report :=
  if (fetchReportRows store w).isEmpty then none
  else
    some { total_income :=
             (((fetchReportRows store w).filter (fun t => t.type == .income)).map (·.amount)).sum,
           total_expense :=
             (((fetchReportRows store w).filter (fun t => t.type == .expense)).map (·.amount)).sum,
           balance :=
             (((fetchReportRows store w).filter (fun t => t.type == .income)).map (·.amount)).sum
               - (((fetchReportRows store w).filter (fun t => t.type == .expense)).map (·.amount)).sum }

/-! ## The message handler -/

/-- Inputs of one handler invocation that come from outside the store and
session: the clock (`get_tehran_time`), the chat, and the random letter
drawn by `generate_transaction_id`. -/
structure Env where
  now : Int
  chatId : Nat
  letter : Char
deriving DecidableEq

structure BotState where
  store : Store
  session : Session
deriving DecidableEq

/-- Replies sent by the handlers, by meaning (texts and keyboards are
presentation only). -/
inductive Msg
  | promptIncomeAmount
  | promptExpenseAmount
  | promptReportPeriod
  | promptEditTxId
  | promptDebtorName
  | promptEditDebtorId
  | debtorList (r : Option DebtorListReport)
  | errInvalidDebtorId
  | errDebtorNotFound
  | debtorSelected
  | promptNewDebtorAmount
  | confirmDebtorStatus
  | confirmDebtorAmount
  | debtorAmountUpdated
  | debtorStatusUpdated
  | debtorEditCancelled
  | errEmptyDebtorName
  | errDebtorNameNotAlpha
  | promptDebtorAmount
  | debtorPreview
  | debtorSaved
  | debtorCancelled
  | errInvalidNumber
  | errNotPositive
  | promptDescription
  | txSaved (tid : List Char)
  | backToMenu
  | errInvalidTxId
  | errTxNotFound
  | txSelected
  | promptEditAmount
  | promptEditDescription
  | txAmountUpdated
  | txDescriptionUpdated
deriving DecidableEq

/-- Observable effects of one handler invocation. -/
inductive Eff
  | reply (m : Msg)
  | armDeleteTimer (surr : Nat) (chatId : Nat)
  | notify (chatId : Nat) (debtorExtId : List Char)
  | raisedProgrammingError
deriving DecidableEq

/-- `UPDATE transactions SET amount = ? WHERE id = ?` (lines 1010-1011). -/
def updateTransactionAmount (store : Store) (surr : Nat) (v : Rat) : Store :=
  { store with transactions :=
      store.transactions.map (fun t => if t.id == surr then { t with amount := v } else t) }

/-- `UPDATE transactions SET description = ? WHERE id = ?` (lines 1043-1044). -/
def updateTransactionDescription (store : Store) (surr : Nat) (text : String) : Store :=
  { store with transactions :=
      store.transactions.map (fun t => if t.id == surr then { t with description := some text } else t) }

/-- `UPDATE debtors SET amount = ? WHERE id = ?` (lines 499-500). -/
def updateDebtorAmount (store : Store) (surr : Nat) (v : Rat) : Store :=
  { store with debtors :=
      store.debtors.map (fun d => if d.id == surr then { d with amount := v } else d) }

/-- `UPDATE debtors SET status = ? WHERE id = ?` (lines 530-531). -/
def updateDebtorStatus (store : Store) (surr : Nat) (s : DebtorStatus) : Store :=
  { store with debtors :=
      store.debtors.map (fun d => if d.id == surr then { d with status := s } else d) }

/-- The id-format test of the `edit_transaction_id` branch (lines 912-915):
`len == 4 and tid[0].isalpha() and tid[0].islower() and tid[1:].isdigit()`. -/
def validTxId (cs : List Char) : Bool :=
  match cs with
  | c :: rest => cs.length == 4 && c.isAlpha && c.isLower && rest.all Char.isDigit
  | [] => false

/-- The id-format test of the `edit_debtor_id` branch (lines 353-355):
`len == 4 and debtor_id[0] == 'D' and debtor_id[1:].isdigit()`. -/
def validDebtorId (cs : List Char) : Bool :=
  match cs with
  | c :: rest => cs.length == 4 && c == 'D' && rest.all Char.isDigit
  | [] => false

/-- `delete_paid_debtor` (lines 286-308): look the row up by surrogate id;
if present, delete it and notify the chat once; otherwise do nothing. -/
def delete_paid_debtor (store : Store) (surr : Nat) (chatId : Nat) :
    Store × List Eff :=
  match store.debtors.find? (fun d => d.id == surr) with
  | some d => (deleteDebtorById store surr, [.notify chatId d.debtor_id])
  | none => (store, [])

/-- `handle_edit_transaction` (lines 892-1057), reached for the four
`waiting_for` values `edit_transaction_id`, `edit_action`, `edit_amount`,
`edit_description`.  The back-to-menu check comes first. -/
def handle_edit_transaction (st : BotState) (text : String) :
    BotState × List Eff :=
  if text = btnBack then
    ({ st with session := .idle }, [.reply .backToMenu])
  else
    match st.session with
    | .awaitingEditTransactionId =>
        let tid := (pyStrip text.data).map Char.toLower
        if !validTxId tid then (st, [.reply .errInvalidTxId])
        else
          match st.store.transactions.find? (fun t => t.transaction_id == tid) with
          | none => (st, [.reply .errTxNotFound])
          | some t => ({ st with session := .awaitingEditAction t }, [.reply .txSelected])
    | .awaitingEditAction t =>
        if text = btnTxEditAmount then
          ({ st with session := .awaitingEditAmount t }, [.reply .promptEditAmount])
        else if text = btnTxEditDesc then
          ({ st with session := .awaitingEditDescription t }, [.reply .promptEditDescription])
        else (st, [])
    | .awaitingEditAmount t =>
        match pyFloat text with
        | none => (st, [.reply .errInvalidNumber])
        | some v =>
            if v ≤ 0 then (st, [.reply .errNotPositive])
            else
              ({ store := updateTransactionAmount st.store t.id v,
                 session := .awaitingEditAction t }, [.reply .txAmountUpdated])
    | .awaitingEditDescription t =>
        ({ store := updateTransactionDescription st.store t.id text,
           session := .awaitingEditAction t }, [.reply .txDescriptionUpdated])
    | _ => (st, [])

/-- The `elif 'waiting_for' in context.user_data` part of `handle_message`
(lines 348-762), dispatching on the current `waiting_for` value. -/
def handle_waiting (env : Env) (st : BotState) (text : String) :
    BotState × List Eff :=
  match st.session with
  | .idle => (st, [])
  | .awaitingEditDebtorId =>
      -- lines 349-407
      let debtor_id := (pyStrip text.data).map Char.toUpper
      if !validDebtorId debtor_id then (st, [.reply .errInvalidDebtorId])
      else
        match st.store.debtors.find? (fun d => d.debtor_id == debtor_id) with
        | none => (st, [.reply .errDebtorNotFound])
        | some d => ({ st with session := .awaitingEditDebtorAction d }, [.reply .debtorSelected])
  | .awaitingEditDebtorAction d =>
      -- lines 409-446; an unrecognized text falls through with no reply
      if text = btnDebtorEditAmount then
        ({ st with session := .awaitingEditDebtorAmount d }, [.reply .promptNewDebtorAmount])
      else if text = btnChangeStatus then
        ({ st with session := .awaitingEditDebtorStatusConfirmation d (flipStatus d.status) },
         [.reply .confirmDebtorStatus])
      else (st, [])
  | .awaitingEditDebtorAmount d =>
      -- lines 448-489
      match pyFloat text with
      | none => (st, [.reply .errInvalidNumber])
      | some v =>
          if v ≤ 0 then (st, [.reply .errNotPositive])
          else
            ({ st with session := .awaitingEditDebtorAmountConfirmation d v },
             [.reply .confirmDebtorAmount])
  | .awaitingEditDebtorAmountConfirmation d v =>
      -- lines 491-520
      if text = btnConfirm then
        ({ store := updateDebtorAmount st.store d.id v, session := .idle },
         [.reply .debtorAmountUpdated])
      else if text = btnCancel then
        ({ st with session := .idle }, [.reply .debtorEditCancelled])
      else (st, [])
  | .awaitingEditDebtorStatusConfirmation d ns =>
      -- lines 522-564; on confirm, update and (if paid) schedule deletion
      if text = btnConfirm then
        ({ store := updateDebtorStatus st.store d.id ns, session := .idle },
         [.reply .debtorStatusUpdated]
           ++ (if ns = .paid then [.armDeleteTimer d.id env.chatId] else []))
      else if text = btnCancel then
        ({ st with session := .idle }, [.reply .debtorEditCancelled])
      else (st, [])
  | .awaitingDebtorName =>
      -- lines 566-585
      if pyStrip text.data = [] then (st, [.reply .errEmptyDebtorName])
      else if !(text.data.all (fun c => c.isAlpha || c.isWhitespace)) then
        (st, [.reply .errDebtorNameNotAlpha])
      else ({ st with session := .awaitingDebtorAmount text }, [.reply .promptDebtorAmount])
  | .awaitingDebtorAmount name =>
      -- lines 587-644; the id is generated now and staged in user_data
      match pyFloat text with
      | none => (st, [.reply .errInvalidNumber])
      | some v =>
          if v ≤ 0 then (st, [.reply .errNotPositive])
          else
            ({ st with session := .awaitingDebtorConfirmation name v (generate_debtor_id st.store) },
             [.reply .debtorPreview])
  | .awaitingDebtorConfirmation name v did =>
      -- lines 646-688
      if text = btnConfirm then
        ({ store := insertDebtor st.store did name v env.now, session := .idle },
         [.reply .debtorSaved])
      else if text = btnCancel then
        ({ st with session := .idle }, [.reply .debtorCancelled])
      else (st, [])
  | .awaitingEditTransactionId => handle_edit_transaction st text
  | .awaitingEditAction _ => handle_edit_transaction st text
  | .awaitingEditAmount _ => handle_edit_transaction st text
  | .awaitingEditDescription _ => handle_edit_transaction st text
  | .awaitingReportPeriod =>
      -- lines 693-694 → show_filtered_report (lines 764-865).  The window
      -- and rows are queried inside `with get_db_connection()`, but
      -- `transactions = c.fetchall()` on line 802 runs after that block
      -- has closed the connection, so sqlite3 raises ProgrammingError
      -- ("Cannot operate on a closed database") before anything else
      -- happens: no reply is produced and user_data is never cleared.
      (st, [.raisedProgrammingError])
  | .awaitingIncomeAmount =>
      -- lines 696-720
      match pyFloat text with
      | none => (st, [.reply .errInvalidNumber])
      | some v =>
          if v ≤ 0 then (st, [.reply .errNotPositive])
          else ({ st with session := .awaitingIncomeDescription v }, [.reply .promptDescription])
  | .awaitingExpenseAmount =>
      match pyFloat text with
      | none => (st, [.reply .errInvalidNumber])
      | some v =>
          if v ≤ 0 then (st, [.reply .errNotPositive])
          else ({ st with session := .awaitingExpenseDescription v }, [.reply .promptDescription])
  | .awaitingIncomeDescription a =>
      -- lines 722-762: `description = text` unconditionally (the skip and
      -- back buttons are not special-cased here)
      let r := createTransaction st.store env.letter .income a (some text) env.now
      ({ store := r.1, session := .idle }, [.reply (.txSaved r.2)])
  | .awaitingExpenseDescription a =>
      let r := createTransaction st.store env.letter .expense a (some text) env.now
      ({ store := r.1, session := .idle }, [.reply (.txSaved r.2)])

/-- `handle_message` (lines 310-762): the seven exact-match menu commands
are checked first, in source order; otherwise the message is interpreted
per the current `waiting_for` state (and ignored when idle). -/
def handle_message (env : Env) (st : BotState) (text : String) :
    BotState × List Eff :=
  if text = btnIncome then
    ({ st with session := .awaitingIncomeAmount }, [.reply .promptIncomeAmount])
  else if text = btnExpense then
    ({ st with session := .awaitingExpenseAmount }, [.reply .promptExpenseAmount])
  else if text = btnReport then
    ({ st with session := .awaitingReportPeriod }, [.reply .promptReportPeriod])
  else if text = btnEditTx then
    ({ st with session := .awaitingEditTransactionId }, [.reply .promptEditTxId])
  else if text = btnSetDebtor then
    ({ st with session := .awaitingDebtorName }, [.reply .promptDebtorName])
  else if text = btnDebtorList then
    (st, [.reply (.debtorList (debtor_list st.store))])
  else if text = btnEditDebtor then
    ({ st with session := .awaitingEditDebtorId }, [.reply .promptEditDebtorId])
  else handle_waiting env st text

/-- Fold a sequence of user messages through the handler, keeping the
resulting state. -/
def runMsgs (env : Env) (st : BotState) (msgs : List String) : BotState :=
  msgs.foldl (fun s text => (handle_message env s text).1) st

/-- A fixed environment for concrete evaluations. -/
def env0 : Env := ⟨0, 1, 'a'⟩

/-! ## Shared lemmas about the handler dispatch -/

/-- None of the seven menu-command texts parses as a number. -/
theorem menu_pyFloat_none : ∀ b ∈ menuTexts, pyFloat b = none := by decide

theorem btnBack_pyFloat_none : pyFloat btnBack = none := by decide

/-- When the text is none of the seven menu commands, `handle_message`
falls through to the `waiting_for` dispatch. -/
theorem handle_message_not_menu (env : Env) (st : BotState) (text : String)
    (h : text ∉ menuTexts) :
    handle_message env st text = handle_waiting env st text := by
  simp only [menuTexts, List.mem_cons, List.not_mem_nil, or_false, not_or] at h
  obtain ⟨h1, h2, h3, h4, h5, h6, h7⟩ := h
  simp only [handle_message, if_neg h1, if_neg h2, if_neg h3, if_neg h4,
    if_neg h5, if_neg h6, if_neg h7]

/-- Sums over the sorted-and-window-filtered fetch equal sums over the
raw table filtered by window and kind. -/
theorem fetchReportRows_filter_sum (store : Store) (w : Option (Int × Int))
    (p : Transaction → Bool) :
    (((fetchReportRows store w).filter p).map Transaction.amount).sum
      = ((store.transactions.filter (fun t => inWindow w t.date && p t)).map
          Transaction.amount).sum := by
  have hperm : (fetchReportRows store w).Perm
      (store.transactions.filter (fun t => inWindow w t.date)) :=
    List.perm_insertionSort _ _
  have h2 := ((hperm.filter p).map Transaction.amount).sum_eq
  rw [h2, List.filter_filter]
  have hp : (fun t => p t && inWindow w t.date)
      = (fun t => inWindow w t.date && p t) := by
    funext t; exact Bool.and_comm _ _
  rw [hp]

/-! ## Claim C1 -/

/-- The store of the C1 failing input: a single income transaction. -/
def c1Store : Store :=
  ⟨[⟨1, ['a', '0', '0', '1'], .income, 100, some "salary", 0⟩], [], 2, 1⟩

/-- C1.  The claim says every report computes
`totalIncome/totalExpense/balance` as the window sums.  In the code as
written this never happens: `show_filtered_report` runs
`transactions = c.fetchall()` (line 802) after the `with
get_db_connection()` block has closed the sqlite connection, so every
report request raises `sqlite3.ProgrammingError` — no totals are produced
and the session is not cleared (first conjunct, evaluated on a store with
one income transaction and the all-transactions period).  The remaining
conjuncts show the claim describes exactly what the aggregation of lines
803-814 computes once the fetch is moved inside the connection block
(`report_totals`): per-kind window sums, `balance = income - expense`,
and an unbounded window (the AllTime period) counting every stored
transaction. -/
theorem c1_report_bug :
    (handle_message env0 ⟨c1Store, .awaitingReportPeriod⟩ periodAll
        = (⟨c1Store, .awaitingReportPeriod⟩, [Eff.raisedProgrammingError]))
    ∧ (∀ (store : Store) (w : Option (Int × Int)) (r : Report),
        report_totals store w = some r →
          r.total_income
              = ((store.transactions.filter
                  (fun t => inWindow w t.date && t.type == .income)).map
                  Transaction.amount).sum
            ∧ r.total_expense
              = ((store.transactions.filter
                  (fun t => inWindow w t.date && t.type == .expense)).map
                  Transaction.amount).sum
            ∧ r.balance = r.total_income - r.total_expense)
    ∧ (∀ (store : Store) (r : Report),
        report_totals store none = some r →
          r.total_income
            = ((store.transactions.filter (fun t => t.type == .income)).map
                Transaction.amount).sum) := by
  refine ⟨by decide, ?_, ?_⟩
  · intro store w r hr
    unfold report_totals at hr
    split at hr
    · exact absurd hr (by simp)
    · rw [Option.some_inj] at hr
      subst hr
      refine ⟨fetchReportRows_filter_sum store w _, fetchReportRows_filter_sum store w _, rfl⟩
  · intro store r hr
    unfold report_totals at hr
    split at hr
    · exact absurd hr (by simp)
    · rw [Option.some_inj] at hr
      subst hr
      have h := fetchReportRows_filter_sum store none (fun t => t.type == .income)
      simpa [inWindow] using h

/-- Witness for the sum conjuncts of `c1_report_bug` on `c1Store`. -/
theorem c1_report_bug_witness :
    (100 : Rat)
        = ((c1Store.transactions.filter
            (fun t => inWindow none t.date && t.type == .income)).map
            Transaction.amount).sum := by
  have h := (c1_report_bug.2.1 c1Store none ⟨100, 0, 100⟩
    (by simp [report_totals, fetchReportRows, c1Store, inWindow,
          List.insertionSort, List.orderedInsert])).1
  simpa using h

/-! ## Claim C10 -/

/-- C10.  The unpaid total shown by `debtor_list` sums exactly the
`'active'`-status debtors of the store, while the paid debtors (excluded
from the total) still appear in the listing. -/
theorem c10_unpaid_total (store : Store) (r : DebtorListReport)
    (hr : debtor_list store = some r) :
    r.total_debt
        = ((store.debtors.filter (fun d => d.status == .active)).map
            Debtor.amount).sum
      ∧ (∀ d ∈ store.debtors, d.status = .paid → d ∈ r.paid_debtors) := by
  have hperm : (fetchDebtors store).Perm store.debtors :=
    List.perm_insertionSort _ _
  unfold debtor_list at hr
  split at hr
  · exact absurd hr (by simp)
  · rw [Option.some_inj] at hr
    subst hr
    constructor
    · exact ((hperm.filter _).map Debtor.amount).sum_eq
    · intro d hd hpaid
      simp only [List.mem_filter, hperm.mem_iff]
      exact ⟨hd, by simp [hpaid]⟩

/-- Witness for `c10_unpaid_total`: a store with one active and one paid
debtor; the total is the active amount only, the paid debtor stays
listed. -/
theorem c10_unpaid_total_witness :
    ((5 : Rat)
        = (((⟨[], [⟨1, ['D', '0', '0', '1'], "A", 5, 0, .active⟩,
                   ⟨2, ['D', '0', '0', '2'], "B", 7, 0, .paid⟩], 1, 3⟩ : Store).debtors.filter
            (fun d => d.status == .active)).map Debtor.amount).sum)
    ∧ (∀ d ∈ (⟨[], [⟨1, ['D', '0', '0', '1'], "A", 5, 0, .active⟩,
                    ⟨2, ['D', '0', '0', '2'], "B", 7, 0, .paid⟩], 1, 3⟩ : Store).debtors,
        d.status = .paid →
          d ∈ [⟨2, ['D', '0', '0', '2'], "B", 7, 0, .paid⟩]) :=
  c10_unpaid_total
    ⟨[], [⟨1, ['D', '0', '0', '1'], "A", 5, 0, .active⟩,
          ⟨2, ['D', '0', '0', '2'], "B", 7, 0, .paid⟩], 1, 3⟩
    ⟨5, [⟨1, ['D', '0', '0', '1'], "A", 5, 0, .active⟩],
        [⟨2, ['D', '0', '0', '2'], "B", 7, 0, .paid⟩]⟩
    (by simp [debtor_list, fetchDebtors, List.insertionSort, List.orderedInsert,
          debtorOrder, statusKey])

/-! ## Claim C4 -/

/-- C4 counterexample.  The claim says a malformed edit id (e.g. `"z9"`)
resets the session to `Idle`.  It does not: the error is reported but
`user_data` is not cleared, so the session stays in the awaiting-id
state. -/
theorem c4_counterexample :
    (handle_message env0 ⟨emptyStore, .awaitingEditTransactionId⟩ "z9"
        = (⟨emptyStore, .awaitingEditTransactionId⟩, [.reply .errInvalidTxId]))
    ∧ Session.awaitingEditTransactionId ≠ Session.idle := by
  decide

/-- C4 as amended: for a text that is not a menu or back command, a
malformed id yields the ValidationError report and the session *remains*
in the awaiting-id state (for both entity kinds); a well-formed id with
no matching record yields the NotFoundError report and the session
likewise remains; in all four cases the store is untouched. -/
theorem c4_amended (env : Env) (st : BotState) (text : String)
    (hmenu : text ∉ menuTexts) (hback : text ≠ btnBack) :
    (st.session = .awaitingEditTransactionId →
      (validTxId ((pyStrip text.data).map Char.toLower) = false →
        handle_message env st text = (st, [.reply .errInvalidTxId]))
      ∧ (validTxId ((pyStrip text.data).map Char.toLower) = true →
          st.store.transactions.find?
              (fun t => t.transaction_id == (pyStrip text.data).map Char.toLower) = none →
          handle_message env st text = (st, [.reply .errTxNotFound])))
    ∧ (st.session = .awaitingEditDebtorId →
      (validDebtorId ((pyStrip text.data).map Char.toUpper) = false →
        handle_message env st text = (st, [.reply .errInvalidDebtorId]))
      ∧ (validDebtorId ((pyStrip text.data).map Char.toUpper) = true →
          st.store.debtors.find?
              (fun d => d.debtor_id == (pyStrip text.data).map Char.toUpper) = none →
          handle_message env st text = (st, [.reply .errDebtorNotFound]))) := by
  rw [handle_message_not_menu env st text hmenu]
  obtain ⟨store, session⟩ := st
  constructor
  · intro hs
    cases hs
    constructor
    · intro hbad
      simp [handle_waiting, handle_edit_transaction, if_neg hback, hbad]
    · intro hgood hfind
      simp [handle_waiting, handle_edit_transaction, if_neg hback, hgood, hfind]
  · intro hs
    cases hs
    constructor
    · intro hbad
      simp [handle_waiting, hbad]
    · intro hgood hfind
      simp [handle_waiting, hgood, hfind]

/-- Witness for `c4_amended`: both error paths at concrete inputs. -/
theorem c4_amended_witness :
    (handle_message env0 ⟨emptyStore, .awaitingEditDebtorId⟩ "z9"
        = (⟨emptyStore, .awaitingEditDebtorId⟩, [.reply .errInvalidDebtorId]))
    ∧ (handle_message env0 ⟨emptyStore, .awaitingEditTransactionId⟩ "a001"
        = (⟨emptyStore, .awaitingEditTransactionId⟩, [.reply .errTxNotFound])) :=
  ⟨((c4_amended env0 ⟨emptyStore, .awaitingEditDebtorId⟩ "z9"
      (by decide) (by decide)).2 rfl).1 (by decide),
   ((c4_amended env0 ⟨emptyStore, .awaitingEditTransactionId⟩ "a001"
      (by decide) (by decide)).1 rfl).2 (by decide) (by decide)⟩

/-! ## Claim C5 -/

/-- The five numeric-input states of the conversation. -/
def isNumericInputState : Session → Bool
  | .awaitingIncomeAmount => true
  | .awaitingExpenseAmount => true
  | .awaitingEditAmount _ => true
  | .awaitingEditDebtorAmount _ => true
  | .awaitingDebtorAmount _ => true
  | _ => false

/-- C5 counterexample.  The claim quantifies over *every* non-numeric
text, but the top-level menu check of `handle_message` runs first: in
`AwaitingAmount(Income)` the (non-numeric) expense menu command moves the
session to `AwaitingAmount(Expense)` instead of re-prompting in the same
state. -/
theorem c5_counterexample :
    pyFloat btnExpense = none
    ∧ (handle_message env0 ⟨emptyStore, .awaitingIncomeAmount⟩ btnExpense).1.session
        = Session.awaitingExpenseAmount
    ∧ Session.awaitingExpenseAmount ≠ Session.awaitingIncomeAmount := by
  decide

/-- C5 as amended: in every numeric-input state, for a text that is not
a menu command nor the back command, a non-numeric or non-positive input
leaves the whole state (session and store) unchanged and re-prompts with
a validation error. -/
theorem c5_amended (env : Env) (st : BotState) (text : String)
    (hstate : isNumericInputState st.session = true)
    (hmenu : text ∉ menuTexts) (hback : text ≠ btnBack)
    (hnum : pyFloat text = none ∨ ∃ v, pyFloat text = some v ∧ v ≤ 0) :
    (handle_message env st text).1 = st
    ∧ ((handle_message env st text).2 = [.reply .errInvalidNumber]
        ∨ (handle_message env st text).2 = [.reply .errNotPositive]) := by
  rw [handle_message_not_menu env st text hmenu]
  obtain ⟨store, session⟩ := st
  cases session <;> simp [isNumericInputState] at hstate <;>
    (rcases hnum with hpf | ⟨v, hpf, hv⟩
     · simp [handle_waiting, handle_edit_transaction, if_neg hback, hpf]
     · simp [handle_waiting, handle_edit_transaction, if_neg hback, hpf, hv])

/-- Witness for `c5_amended`: `"-5"` in `AwaitingAmount(Income)`. -/
theorem c5_amended_witness :
    (handle_message env0 ⟨emptyStore, .awaitingIncomeAmount⟩ "-5").1
        = ⟨emptyStore, .awaitingIncomeAmount⟩
    ∧ ((handle_message env0 ⟨emptyStore, .awaitingIncomeAmount⟩ "-5").2
          = [.reply .errInvalidNumber]
        ∨ (handle_message env0 ⟨emptyStore, .awaitingIncomeAmount⟩ "-5").2
          = [.reply .errNotPositive]) :=
  c5_amended env0 ⟨emptyStore, .awaitingIncomeAmount⟩ "-5" rfl (by decide) (by decide)
    (Or.inr ⟨-5, by decide, by decide⟩)

/-! ## Claim C8 -/

/-- C8.  The claim (and the spec) says the explicit skip command makes
the transaction persist with `description = None`.  The code never
special-cases the skip button: in a description state *any* text,
including the skip button's own label, is stored literally as the
description.  Evaluated at the failing input (awaiting the description of
an income of 1000, user presses skip): the created row's description is
`some btnSkip`, not `none`. -/
theorem c8_skip_stored_literally :
    ((handle_message env0 ⟨emptyStore, .awaitingIncomeDescription 1000⟩ btnSkip).1.store.transactions.map
        Transaction.description = [some btnSkip])
    ∧ some btnSkip ≠ (none : Option String)
    ∧ (handle_message env0 ⟨emptyStore, .awaitingIncomeDescription 1000⟩ btnSkip).1.session
        = Session.idle := by
  decide

/-! ## Claim C9 -/

/-- The four transaction-edit states, which are the only states routed
through `handle_edit_transaction` and hence the only states with a
back-to-menu branch. -/
def isTxEditState : Session → Bool
  | .awaitingEditTransactionId => true
  | .awaitingEditAction _ => true
  | .awaitingEditAmount _ => true
  | .awaitingEditDescription _ => true
  | _ => false

/-- C9 counterexample.  The claim says the back-to-menu command clears
the session to `Idle` from every state.  In `AwaitingAmount(Income)` the
back command is treated as an amount, fails to parse, and the session
stays where it was. -/
theorem c9_counterexample :
    (handle_message env0 ⟨emptyStore, .awaitingIncomeAmount⟩ btnBack
        = (⟨emptyStore, .awaitingIncomeAmount⟩, [.reply .errInvalidNumber]))
    ∧ Session.awaitingIncomeAmount ≠ Session.idle := by
  decide

/-- The two description-input states, where any text — including the
back command — is persisted as the new transaction's description. -/
def isDescriptionState : Session → Bool
  | .awaitingIncomeDescription _ => true
  | .awaitingExpenseDescription _ => true
  | _ => false

/-- C9 as amended, a complete case split on the session state.  The
back-to-menu command clears the session to `Idle` with the store
untouched exactly in the four transaction-edit states (the only states
routed through `handle_edit_transaction`, which checks the back command
first).  In the two description states it is *not* a reset: the back
label is stored literally as the description of a newly created
transaction, after which the normal completion path clears the session
to `Idle`.  In every other state (idle, the amount states, the report
state, and all the debtor-flow states) the command leaves session and
store entirely unchanged — in particular the session is not cleared. -/
theorem c9_amended (env : Env) (st : BotState) :
    (isTxEditState st.session = true →
      handle_message env st btnBack = ({ st with session := .idle }, [.reply .backToMenu]))
    ∧ (isTxEditState st.session = false → isDescriptionState st.session = false →
        (handle_message env st btnBack).1 = st)
    ∧ (∀ a : Rat, st.session = .awaitingIncomeDescription a →
        (handle_message env st btnBack).1.session = .idle
        ∧ (handle_message env st btnBack).1.store.transactions
            = { id := st.store.nextTxRowId,
                transaction_id := generate_transaction_id st.store env.letter,
                type := TxKind.income, amount := a, description := some btnBack,
                date := env.now } :: st.store.transactions)
    ∧ (∀ a : Rat, st.session = .awaitingExpenseDescription a →
        (handle_message env st btnBack).1.session = .idle
        ∧ (handle_message env st btnBack).1.store.transactions
            = { id := st.store.nextTxRowId,
                transaction_id := generate_transaction_id st.store env.letter,
                type := TxKind.expense, amount := a, description := some btnBack,
                date := env.now } :: st.store.transactions) := by
  have hmenu : btnBack ∉ menuTexts := by decide
  have hstrip : ¬(pyStrip btnBack.data = []) := by decide
  have halpha : (btnBack.data.all (fun c => c.isAlpha || c.isWhitespace)) = false := by
    decide
  have hdid : validDebtorId ((pyStrip btnBack.data).map Char.toUpper) = false := by
    decide
  have hconf : ¬(btnBack = btnConfirm) := by decide
  have hcanc : ¬(btnBack = btnCancel) := by decide
  have hdea : ¬(btnBack = btnDebtorEditAmount) := by decide
  have hcs : ¬(btnBack = btnChangeStatus) := by decide
  rw [handle_message_not_menu env st btnBack hmenu]
  obtain ⟨store, session⟩ := st
  refine ⟨?_, ?_, ?_, ?_⟩
  · intro h
    cases session <;> simp [isTxEditState] at h <;>
      simp [handle_waiting, handle_edit_transaction]
  · intro h1 h2
    cases session <;> simp [isTxEditState] at h1 <;>
      simp [isDescriptionState] at h2 <;>
        simp [handle_waiting, btnBack_pyFloat_none, hstrip, halpha, hdid,
          hconf, hcanc, hdea, hcs]
  · intro a hs
    cases hs
    exact ⟨rfl, rfl⟩
  · intro a hs
    cases hs
    exact ⟨rfl, rfl⟩

/-- Witness for `c9_amended`: back clears to `Idle` in the awaiting-edit-id
state; leaves an amount state untouched; and in a description state
creates a record whose description is the back label, clearing to
`Idle`. -/
theorem c9_amended_witness :
    (handle_message env0 ⟨emptyStore, .awaitingEditTransactionId⟩ btnBack
      = (⟨emptyStore, .idle⟩, [.reply .backToMenu]))
    ∧ ((handle_message env0 ⟨emptyStore, .awaitingIncomeAmount⟩ btnBack).1
        = ⟨emptyStore, .awaitingIncomeAmount⟩)
    ∧ ((handle_message env0 ⟨emptyStore, .awaitingIncomeDescription 1000⟩ btnBack).1.session
          = Session.idle
        ∧ (handle_message env0 ⟨emptyStore, .awaitingIncomeDescription 1000⟩ btnBack).1.store.transactions
          = { id := emptyStore.nextTxRowId,
              transaction_id := generate_transaction_id emptyStore env0.letter,
              type := TxKind.income, amount := 1000, description := some btnBack,
              date := env0.now } :: emptyStore.transactions) :=
  ⟨(c9_amended env0 ⟨emptyStore, .awaitingEditTransactionId⟩).1 rfl,
   (c9_amended env0 ⟨emptyStore, .awaitingIncomeAmount⟩).2.1 rfl rfl,
   (c9_amended env0 ⟨emptyStore, .awaitingIncomeDescription 1000⟩).2.2.1 1000 rfl⟩

/-! ## Claim C3 -/

/-- C3 counterexample.  The claim says a Debtor's status never goes from
Paid back to Active.  The status-edit flow *toggles*: starting from an
empty store, registering a debtor, confirming a status change (Active to
Paid), and then confirming a second status change brings the record back
to Active. -/
theorem c3_counterexample :
    ((runMsgs env0 ⟨emptyStore, .idle⟩
        [btnSetDebtor, "Ali", "500", btnConfirm,
         btnEditDebtor, "D001", btnChangeStatus, btnConfirm]).store.debtors.map
        (fun d => (d.debtor_id, d.status))
      = [(['D', '0', '0', '1'], DebtorStatus.paid)])
    ∧ ((runMsgs env0 ⟨emptyStore, .idle⟩
        [btnSetDebtor, "Ali", "500", btnConfirm,
         btnEditDebtor, "D001", btnChangeStatus, btnConfirm,
         btnEditDebtor, "D001", btnChangeStatus, btnConfirm]).store.debtors.map
        (fun d => (d.debtor_id, d.status))
      = [(['D', '0', '0', '1'], DebtorStatus.active)]) := by
  decide

/-- C3 as amended: the status edit is a two-way toggle, not a one-way
transition.  Choosing the change-status action stages the *opposite* of
the status the record had when it was selected, and confirming commits
exactly that staged status — so Paid→Active is reachable whenever the
selected record is Paid. -/
theorem c3_amended (env : Env) (st : BotState) :
    (∀ d : Debtor, st.session = .awaitingEditDebtorAction d →
      (handle_message env st btnChangeStatus).1.session
        = .awaitingEditDebtorStatusConfirmation d (flipStatus d.status)
      ∧ flipStatus .paid = .active)
    ∧ (∀ (d : Debtor) (ns : DebtorStatus),
        st.session = .awaitingEditDebtorStatusConfirmation d ns →
        (handle_message env st btnConfirm).1.store.debtors
          = st.store.debtors.map
              (fun x => if x.id == d.id then { x with status := ns } else x)) := by
  obtain ⟨store, session⟩ := st
  constructor
  · intro d hs
    cases hs
    rw [handle_message_not_menu _ _ _ (by decide)]
    simp [handle_waiting, flipStatus,
      if_neg (by decide : ¬(btnChangeStatus = btnDebtorEditAmount))]
  · intro d ns hs
    cases hs
    rw [handle_message_not_menu _ _ _ (by decide)]
    simp [handle_waiting, updateDebtorStatus]

/-- Witness for `c3_amended` on a concrete Paid debtor: the staged status
is Active and confirming it writes Active. -/
theorem c3_amended_witness :
    ((handle_message env0
        ⟨⟨[], [⟨1, ['D', '0', '0', '1'], "Ali", 500, 0, .paid⟩], 1, 2⟩,
         .awaitingEditDebtorAction ⟨1, ['D', '0', '0', '1'], "Ali", 500, 0, .paid⟩⟩
        btnChangeStatus).1.session
      = .awaitingEditDebtorStatusConfirmation
          ⟨1, ['D', '0', '0', '1'], "Ali", 500, 0, .paid⟩
          (flipStatus DebtorStatus.paid)
      ∧ flipStatus DebtorStatus.paid = DebtorStatus.active)
    ∧ ((handle_message env0
        ⟨⟨[], [⟨1, ['D', '0', '0', '1'], "Ali", 500, 0, .paid⟩], 1, 2⟩,
         .awaitingEditDebtorStatusConfirmation
           ⟨1, ['D', '0', '0', '1'], "Ali", 500, 0, .paid⟩ .active⟩
        btnConfirm).1.store.debtors
      = (⟨[], [⟨1, ['D', '0', '0', '1'], "Ali", 500, 0, .paid⟩], 1, 2⟩ : Store).debtors.map
          (fun x => if x.id == (1 : Nat) then { x with status := DebtorStatus.active } else x)) :=
  ⟨(c3_amended env0
      ⟨⟨[], [⟨1, ['D', '0', '0', '1'], "Ali", 500, 0, .paid⟩], 1, 2⟩,
       .awaitingEditDebtorAction ⟨1, ['D', '0', '0', '1'], "Ali", 500, 0, .paid⟩⟩).1
      ⟨1, ['D', '0', '0', '1'], "Ali", 500, 0, .paid⟩ rfl,
   (c3_amended env0
      ⟨⟨[], [⟨1, ['D', '0', '0', '1'], "Ali", 500, 0, .paid⟩], 1, 2⟩,
       .awaitingEditDebtorStatusConfirmation
         ⟨1, ['D', '0', '0', '1'], "Ali", 500, 0, .paid⟩ .active⟩).2
      ⟨1, ['D', '0', '0', '1'], "Ali", 500, 0, .paid⟩ .active rfl⟩

/-! ## Claim C6 -/

/-- C6.  Confirming a status change to Paid arms exactly one one-shot
deletion timer for that debtor row addressed to the requesting chat; and
when the timer fires (`delete_paid_debtor`), if the row still exists it
is removed from the store (so it can no longer appear in the debtor
list), transactions are untouched, and exactly one notification is sent;
if the row is already absent the firing is a no-op with no
notification. -/
theorem c6_paid_deletion (env : Env) (st : BotState) :
    (∀ d : Debtor, st.session = .awaitingEditDebtorStatusConfirmation d .paid →
      (handle_message env st btnConfirm).2
        = [.reply .debtorStatusUpdated, .armDeleteTimer d.id env.chatId])
    ∧ (∀ (store : Store) (surr chatId : Nat) (d : Debtor),
        store.debtors.find? (fun x => x.id == surr) = some d →
        (delete_paid_debtor store surr chatId).2 = [.notify chatId d.debtor_id]
          ∧ (∀ x ∈ (delete_paid_debtor store surr chatId).1.debtors, x.id ≠ surr)
          ∧ (delete_paid_debtor store surr chatId).1.transactions = store.transactions)
    ∧ (∀ (store : Store) (surr chatId : Nat),
        store.debtors.find? (fun x => x.id == surr) = none →
        delete_paid_debtor store surr chatId = (store, [])) := by
  refine ⟨?_, ?_, ?_⟩
  · intro d hs
    obtain ⟨store, session⟩ := st
    cases hs
    rw [handle_message_not_menu _ _ _ (by decide)]
    simp [handle_waiting]
  · intro store surr chatId d hfind
    have h1 : delete_paid_debtor store surr chatId
        = (deleteDebtorById store surr, [.notify chatId d.debtor_id]) := by
      simp only [delete_paid_debtor, hfind]
    rw [h1]
    refine ⟨rfl, ?_, rfl⟩
    intro x hx
    simp only [deleteDebtorById, List.mem_filter, Bool.not_eq_eq_eq_not,
      Bool.not_true, beq_eq_false_iff_ne, ne_eq] at hx
    exact hx.2
  · intro store surr chatId hfind
    simp [delete_paid_debtor, hfind]

/-- Witness for `c6_paid_deletion` on a one-debtor store (timer armed on
confirm; firing deletes and notifies once; firing on an empty store is a
no-op). -/
theorem c6_paid_deletion_witness :
    ((handle_message env0
        ⟨⟨[], [⟨1, ['D', '0', '0', '1'], "Ali", 500, 0, .active⟩], 1, 2⟩,
         .awaitingEditDebtorStatusConfirmation
           ⟨1, ['D', '0', '0', '1'], "Ali", 500, 0, .active⟩ .paid⟩
        btnConfirm).2
      = [.reply .debtorStatusUpdated, .armDeleteTimer 1 1])
    ∧ ((delete_paid_debtor
          ⟨[], [⟨1, ['D', '0', '0', '1'], "Ali", 500, 0, .paid⟩], 1, 2⟩ 1 1).2
        = [.notify 1 ['D', '0', '0', '1']])
    ∧ delete_paid_debtor emptyStore 1 1 = (emptyStore, []) :=
  ⟨(c6_paid_deletion env0
      ⟨⟨[], [⟨1, ['D', '0', '0', '1'], "Ali", 500, 0, .active⟩], 1, 2⟩,
       .awaitingEditDebtorStatusConfirmation
         ⟨1, ['D', '0', '0', '1'], "Ali", 500, 0, .active⟩ .paid⟩).1
      ⟨1, ['D', '0', '0', '1'], "Ali", 500, 0, .active⟩ rfl,
   ((c6_paid_deletion env0 ⟨emptyStore, .idle⟩).2.1
      ⟨[], [⟨1, ['D', '0', '0', '1'], "Ali", 500, 0, .paid⟩], 1, 2⟩ 1 1
      ⟨1, ['D', '0', '0', '1'], "Ali", 500, 0, .paid⟩ (by decide)).1,
   (c6_paid_deletion env0 ⟨emptyStore, .idle⟩).2.2 emptyStore 1 1 (by decide)⟩

/-! ## Claim C7 -/

/-- C7.  A successful amount edit (valid id already selected, positive
parsed amount) rewrites only the `amount` column of the row with the
selected surrogate id: every row keeps its `transaction_id`
(externalId), `type` (kind), `date` (createdAt) and `description`, and
rows with a different id are completely unchanged.  Symmetrically, a
description edit changes only `description`. -/
theorem c7_edit_frame (env : Env) (st : BotState) (text : String) :
    (∀ (t : Transaction) (v : Rat), st.session = .awaitingEditAmount t →
      pyFloat text = some v → 0 < v →
      (handle_message env st text).1.session = .awaitingEditAction t
      ∧ List.Forall₂ (fun old new =>
            new.transaction_id = old.transaction_id ∧ new.type = old.type
            ∧ new.date = old.date ∧ new.description = old.description
            ∧ (old.id = t.id → new.amount = v) ∧ (old.id ≠ t.id → new = old))
          st.store.transactions (handle_message env st text).1.store.transactions)
    ∧ (∀ t : Transaction, st.session = .awaitingEditDescription t →
        text ∉ menuTexts → text ≠ btnBack →
        (handle_message env st text).1.session = .awaitingEditAction t
        ∧ List.Forall₂ (fun old new =>
              new.transaction_id = old.transaction_id ∧ new.type = old.type
              ∧ new.date = old.date ∧ new.amount = old.amount
              ∧ (old.id = t.id → new.description = some text) ∧ (old.id ≠ t.id → new = old))
            st.store.transactions (handle_message env st text).1.store.transactions) := by
  constructor
  · intro t v hs hpf hv
    have hmenu : text ∉ menuTexts := by
      intro hmem
      rw [menu_pyFloat_none text hmem] at hpf
      exact Option.noConfusion hpf
    have hback : text ≠ btnBack := by
      intro hb
      rw [hb, btnBack_pyFloat_none] at hpf
      exact Option.noConfusion hpf
    obtain ⟨store, session⟩ := st
    cases hs
    rw [handle_message_not_menu _ _ _ hmenu]
    simp only [handle_waiting, handle_edit_transaction, if_neg hback, hpf,
      if_neg (not_le.mpr hv)]
    refine ⟨by trivial, ?_⟩
    simp only [updateTransactionAmount]
    rw [List.forall₂_map_right_iff, List.forall₂_same]
    intro x _
    by_cases hid : x.id = t.id
    · simp [hid]
    · simp [hid]
  · intro t hs hmenu hback
    obtain ⟨store, session⟩ := st
    cases hs
    rw [handle_message_not_menu _ _ _ hmenu]
    simp only [handle_waiting, handle_edit_transaction, if_neg hback]
    refine ⟨by trivial, ?_⟩
    simp only [updateTransactionDescription]
    rw [List.forall₂_map_right_iff, List.forall₂_same]
    intro x _
    by_cases hid : x.id = t.id
    · simp [hid]
    · simp [hid]

/-- Witness for `c7_edit_frame`: editing the amount of `a001` to 7 on a
one-row store. -/
theorem c7_edit_frame_witness :
    (handle_message env0
        ⟨⟨[⟨1, ['a', '0', '0', '1'], .income, 5, some "x", 0⟩], [], 2, 1⟩,
         .awaitingEditAmount ⟨1, ['a', '0', '0', '1'], .income, 5, some "x", 0⟩⟩
        "7").1.session
      = .awaitingEditAction ⟨1, ['a', '0', '0', '1'], .income, 5, some "x", 0⟩
    ∧ List.Forall₂ (fun old new =>
          new.transaction_id = old.transaction_id ∧ new.type = old.type
          ∧ new.date = old.date ∧ new.description = old.description
          ∧ (old.id = (⟨1, ['a', '0', '0', '1'], .income, 5, some "x", 0⟩ : Transaction).id → new.amount = 7)
          ∧ (old.id ≠ (⟨1, ['a', '0', '0', '1'], .income, 5, some "x", 0⟩ : Transaction).id → new = old))
        [⟨1, ['a', '0', '0', '1'], .income, 5, some "x", 0⟩]
        (handle_message env0
          ⟨⟨[⟨1, ['a', '0', '0', '1'], .income, 5, some "x", 0⟩], [], 2, 1⟩,
           .awaitingEditAmount ⟨1, ['a', '0', '0', '1'], .income, 5, some "x", 0⟩⟩
          "7").1.store.transactions :=
  (c7_edit_frame env0
      ⟨⟨[⟨1, ['a', '0', '0', '1'], .income, 5, some "x", 0⟩], [], 2, 1⟩,
       .awaitingEditAmount ⟨1, ['a', '0', '0', '1'], .income, 5, some "x", 0⟩⟩
      "7").1
    ⟨1, ['a', '0', '0', '1'], .income, 5, some "x", 0⟩ 7 rfl (by decide) (by decide)

set_option maxRecDepth 100000

/-! ## Claim C2 -/

/-- True for the two create operations (no clear/delete in the run). -/
def StoreOp.isCreateOp : StoreOp → Bool
  | .createTx _ _ _ _ _ => true
  | .createDebtorRec _ _ _ => true
  | _ => false

/-- The random letter of a transaction create is lowercase, as
`random.choice(string.ascii_lowercase)` guarantees. -/
def StoreOp.letterOk : StoreOp → Bool
  | .createTx letter _ _ _ _ => letter.isLower
  | _ => true

def txCreateCount (ops : List StoreOp) : Nat :=
  ops.countP fun op => match op with | .createTx _ _ _ _ _ => true | _ => false

def debtorCreateCount (ops : List StoreOp) : Nat :=
  ops.countP fun op => match op with | .createDebtorRec _ _ _ => true | _ => false

/-- The counter the transaction-id allocator reads next: the numeric
suffix of the newest row, 0 for an empty table. -/
def txCtr (store : Store) (k : Nat) : Prop :=
  match store.transactions.head? with
  | none => k = 0
  | some t => numSuffix t.transaction_id = k

/-- Same for the debtor-id allocator. -/
def debtorCtr (store : Store) (m : Nat) : Prop :=
  match store.debtors.head? with
  | none => m = 0
  | some d => numSuffix d.debtor_id = m

theorem numSuffix_cons (c : Char) (cs : List Char) :
    numSuffix (c :: cs) = charsVal cs := rfl

theorem pad3Chars_inj {a b : Nat} (h : pad3Chars a = pad3Chars b) : a = b := by
  have ha := charsVal_pad3Chars a
  rw [h, charsVal_pad3Chars] at ha
  omega

theorem generate_transaction_id_eq (store : Store) (k : Nat) (l : Char)
    (hk : txCtr store k) :
    generate_transaction_id store l = l :: pad3Chars (k + 1) := by
  unfold txCtr at hk
  unfold generate_transaction_id
  cases hhead : store.transactions.head? <;> simp only [hhead] at hk ⊢
  · rw [hk]
  · rw [hk]

theorem generate_debtor_id_eq (store : Store) (m : Nat)
    (hm : debtorCtr store m) :
    generate_debtor_id store = 'D' :: pad3Chars (m + 1) := by
  unfold debtorCtr at hm
  unfold generate_debtor_id
  cases hhead : store.debtors.head? <;> simp only [hhead] at hm ⊢
  · rw [hm]
  · rw [hm]

theorem txCtr_insertTransaction (store : Store) (k : Nat) (l : Char)
    (kind : TxKind) (a : Rat) (descr : Option String) (date : Int) :
    txCtr (insertTransaction store (l :: pad3Chars (k + 1)) kind a descr date)
      (k + 1) := by
  unfold txCtr insertTransaction
  simp only [List.head?_cons]
  rw [numSuffix_cons, charsVal_pad3Chars]

theorem debtorCtr_insertDebtor (store : Store) (m : Nat) (name : String)
    (a : Rat) (date : Int) :
    debtorCtr (insertDebtor store ('D' :: pad3Chars (m + 1)) name a date)
      (m + 1) := by
  unfold debtorCtr insertDebtor
  simp only [List.head?_cons]
  rw [numSuffix_cons, charsVal_pad3Chars]

/-- Shape of every id emitted by a creates-only run started with counters
`k0` (transactions) and `m0` (debtors): a rendered counter value in the
half-open range left by the run. -/
def idSpec (k0 k1 m0 m1 : Nat) : CreatedId → Prop
  | .tx cs => ∃ l n, l.isLower = true ∧ cs = l :: pad3Chars n ∧ k0 < n ∧ n ≤ k1
  | .debtor cs => ∃ n, cs = 'D' :: pad3Chars n ∧ m0 < n ∧ n ≤ m1

theorem runOps_creates_spec : ∀ ops : List StoreOp,
    ops.all StoreOp.isCreateOp = true → ops.all StoreOp.letterOk = true →
    ∀ (store : Store) (k m : Nat), txCtr store k → debtorCtr store m →
      (∀ cid ∈ (runOps store ops).2,
        idSpec k (k + txCreateCount ops) m (m + debtorCreateCount ops) cid)
      ∧ ((runOps store ops).2.map CreatedId.chars).Nodup := by
  intro ops
  induction ops with
  | nil =>
    intro _ _ store k m _ _
    constructor
    · intro cid hcid
      simp [runOps] at hcid
    · simp [runOps]
  | cons op rest ih =>
    intro hall hlet store k m hk hm
    rw [List.all_cons, Bool.and_eq_true] at hall hlet
    obtain ⟨hop, hall⟩ := hall
    obtain ⟨hlop, hlet⟩ := hlet
    cases op with
    | createTx l kind a descr date =>
      simp only [StoreOp.letterOk] at hlop
      have hgen := generate_transaction_id_eq store k l hk
      have hrun : runOps store (StoreOp.createTx l kind a descr date :: rest)
          = ((runOps (insertTransaction store (l :: pad3Chars (k + 1)) kind a descr date) rest).1,
             CreatedId.tx (l :: pad3Chars (k + 1))
               :: (runOps (insertTransaction store (l :: pad3Chars (k + 1)) kind a descr date) rest).2) := by
        simp [runOps, applyOp, createTransaction, hgen]
      have hk2 := txCtr_insertTransaction store k l kind a descr date
      have hm2 : debtorCtr
          (insertTransaction store (l :: pad3Chars (k + 1)) kind a descr date) m := hm
      have hih := ih hall hlet _ (k + 1) m hk2 hm2
      have hcntTx : txCreateCount (StoreOp.createTx l kind a descr date :: rest)
          = txCreateCount rest + 1 := by
        simp [txCreateCount, List.countP_cons]
      have hcntD : debtorCreateCount (StoreOp.createTx l kind a descr date :: rest)
          = debtorCreateCount rest := by
        simp [debtorCreateCount, List.countP_cons]
      rw [hrun, hcntTx, hcntD]
      constructor
      · intro cid hcid
        rcases List.mem_cons.mp hcid with rfl | hcid
        · simp only [idSpec]
          exact ⟨l, k + 1, hlop, rfl, Nat.lt_succ_self k, by omega⟩
        · have hspec := hih.1 cid hcid
          cases cid with
          | tx cs =>
            simp only [idSpec] at hspec ⊢
            obtain ⟨l2, n, hl2, rfl, h1, h2⟩ := hspec
            exact ⟨l2, n, hl2, rfl, by omega, by omega⟩
          | debtor cs =>
            simp only [idSpec] at hspec ⊢
            obtain ⟨n, rfl, h1, h2⟩ := hspec
            exact ⟨n, rfl, h1, h2⟩
      · rw [List.map_cons, List.nodup_cons]
        refine ⟨?_, hih.2⟩
        intro hmem
        rw [List.mem_map] at hmem
        obtain ⟨cid, hcid, hchars⟩ := hmem
        have hspec := hih.1 cid hcid
        cases cid with
        | tx cs =>
          simp only [idSpec] at hspec
          obtain ⟨l2, n, hl2, rfl, h1, h2⟩ := hspec
          simp only [CreatedId.chars] at hchars
          injection hchars with hh ht
          have := pad3Chars_inj ht
          omega
        | debtor cs =>
          simp only [idSpec] at hspec
          obtain ⟨n, rfl, h1, h2⟩ := hspec
          simp only [CreatedId.chars] at hchars
          injection hchars with hh ht
          rw [← hh] at hlop
          exact absurd hlop (by decide)
    | createDebtorRec name a date =>
      have hgen := generate_debtor_id_eq store m hm
      have hrun : runOps store (StoreOp.createDebtorRec name a date :: rest)
          = ((runOps (insertDebtor store ('D' :: pad3Chars (m + 1)) name a date) rest).1,
             CreatedId.debtor ('D' :: pad3Chars (m + 1))
               :: (runOps (insertDebtor store ('D' :: pad3Chars (m + 1)) name a date) rest).2) := by
        simp [runOps, applyOp, createDebtor, hgen]
      have hm2 := debtorCtr_insertDebtor store m name a date
      have hk2 : txCtr (insertDebtor store ('D' :: pad3Chars (m + 1)) name a date) k := hk
      have hih := ih hall hlet _ k (m + 1) hk2 hm2
      have hcntTx : txCreateCount (StoreOp.createDebtorRec name a date :: rest)
          = txCreateCount rest := by
        simp [txCreateCount, List.countP_cons]
      have hcntD : debtorCreateCount (StoreOp.createDebtorRec name a date :: rest)
          = debtorCreateCount rest + 1 := by
        simp [debtorCreateCount, List.countP_cons]
      rw [hrun, hcntTx, hcntD]
      constructor
      · intro cid hcid
        rcases List.mem_cons.mp hcid with rfl | hcid
        · simp only [idSpec]
          exact ⟨m + 1, rfl, Nat.lt_succ_self m, by omega⟩
        · have hspec := hih.1 cid hcid
          cases cid with
          | tx cs =>
            simp only [idSpec] at hspec ⊢
            obtain ⟨l2, n, hl2, rfl, h1, h2⟩ := hspec
            exact ⟨l2, n, hl2, rfl, h1, h2⟩
          | debtor cs =>
            simp only [idSpec] at hspec ⊢
            obtain ⟨n, rfl, h1, h2⟩ := hspec
            exact ⟨n, rfl, by omega, by omega⟩
      · rw [List.map_cons, List.nodup_cons]
        refine ⟨?_, hih.2⟩
        intro hmem
        rw [List.mem_map] at hmem
        obtain ⟨cid, hcid, hchars⟩ := hmem
        have hspec := hih.1 cid hcid
        cases cid with
        | tx cs =>
          simp only [idSpec] at hspec
          obtain ⟨l2, n, hl2, rfl, h1, h2⟩ := hspec
          simp only [CreatedId.chars] at hchars
          injection hchars with hh ht
          rw [hh] at hl2
          exact absurd hl2 (by decide)
        | debtor cs =>
          simp only [idSpec] at hspec
          obtain ⟨n, rfl, h1, h2⟩ := hspec
          simp only [CreatedId.chars] at hchars
          injection hchars with hh ht
          have := pad3Chars_inj ht
          omega
    | clearTransactions => simp [StoreOp.isCreateOp] at hop
    | clearDebtors => simp [StoreOp.isCreateOp] at hop
    | clearAll => simp [StoreOp.isCreateOp] at hop
    | deleteDebtorRow surr => simp [StoreOp.isCreateOp] at hop

/-- C2 counterexample.  The claim (ids always match the 3-digit format
and are never returned twice in a run, *including* runs with
clear/delete operations) fails in both parts: (a) the 1000th transaction
create of a run renders its counter as `"a1000"` — four digits, so the
format check fails; (b) in the run create/clear/create, the counter is
re-derived from the now-empty table, and the id `"a001"` is returned a
second time. -/
theorem c2_counterexample :
    (¬ ((((runOps emptyStore
            (List.replicate 1000 (.createTx 'a' .income 1 none 0))).2.all createdOk) = true)
        ∧ ((runOps emptyStore
            (List.replicate 1000 (.createTx 'a' .income 1 none 0))).2.map
              CreatedId.chars).Nodup))
    ∧ (¬ ((((runOps emptyStore
            [.createTx 'a' .income 1 none 0, .clearTransactions,
             .createTx 'a' .income 1 none 0]).2.all createdOk) = true)
        ∧ ((runOps emptyStore
            [.createTx 'a' .income 1 none 0, .clearTransactions,
             .createTx 'a' .income 1 none 0]).2.map CreatedId.chars).Nodup)) := by
  constructor
  · intro h
    exact absurd h.1 (by decide)
  · intro h
    exact absurd h.2 (by decide)

/-- C2 as amended: in a run consisting only of create calls (no
clear/delete operations) with at most 999 creates of each kind, every
returned externalId matches its kind's format (lowercase letter + exactly
three digits for transactions, `'D'` + exactly three digits for debtors)
and no externalId is ever returned twice. -/
theorem c2_amended (ops : List StoreOp)
    (hcreate : ops.all StoreOp.isCreateOp = true)
    (hletter : ops.all StoreOp.letterOk = true)
    (htx : txCreateCount ops ≤ 999)
    (hd : debtorCreateCount ops ≤ 999) :
    ((runOps emptyStore ops).2.all createdOk = true)
    ∧ ((runOps emptyStore ops).2.map CreatedId.chars).Nodup := by
  have hk0 : txCtr emptyStore 0 := by simp [txCtr, emptyStore]
  have hm0 : debtorCtr emptyStore 0 := by simp [debtorCtr, emptyStore]
  have hspec := runOps_creates_spec ops hcreate hletter emptyStore 0 0 hk0 hm0
  refine ⟨?_, hspec.2⟩
  rw [List.all_eq_true]
  intro cid hcid
  have h := hspec.1 cid hcid
  cases cid with
  | tx cs =>
    simp only [idSpec] at h
    obtain ⟨l, n, hl, rfl, h1, h2⟩ := h
    simp only [createdOk, txFormatOk, Bool.and_eq_true]
    refine ⟨⟨hl, ?_⟩, pad3Chars_all_digits n⟩
    rw [pad3Chars_length (by omega)]
    decide
  | debtor cs =>
    simp only [idSpec] at h
    obtain ⟨n, rfl, h1, h2⟩ := h
    simp only [createdOk, debtorFormatOk, Bool.and_eq_true]
    refine ⟨⟨by decide, ?_⟩, pad3Chars_all_digits n⟩
    rw [pad3Chars_length (by omega)]
    decide

/-- Witness for `c2_amended` on a three-create run. -/
theorem c2_amended_witness :
    ((runOps emptyStore
        [.createTx 'a' .income 5 none 0, .createDebtorRec "Ali" 7 0,
         .createTx 'b' .expense 3 none 1]).2.all createdOk = true)
    ∧ ((runOps emptyStore
        [.createTx 'a' .income 5 none 0, .createDebtorRec "Ali" 7 0,
         .createTx 'b' .expense 3 none 1]).2.map CreatedId.chars).Nodup :=
  c2_amended
    [.createTx 'a' .income 5 none 0, .createDebtorRec "Ali" 7 0,
     .createTx 'b' .expense 3 none 1]
    (by decide) (by decide) (by decide) (by decide)

end AccBot
